import Mathlib

/-!
# Shallow embedding of the NorrisBot Slack bot (src/src/NorrisBot.js)

The repository's `NorrisBot.js` contains three concatenated variants of the
`NorrisBot` class:

* variant A (lines 1-255): Giphy-enabled, validates `giphyToken` and `jokes`
  but not `slackToken` (a missing Slack token selects the BeepBoop path);
* variant B (lines 256-575): validates `slackToken`, `giphyToken` and `jokes`,
  and maintains the membership snapshot (`botChannels` / `botGroups`) through
  `addChannel` / `removeChannel` / `addGroup` / `removeGroup`;
* variant C (lines 576-799): validates `token` and `jokes`, seeds
  `botGroups` / `botChannels` after the RTM handshake, and broadcasts the
  joke of the day to every destination via `postJokeOfTheDay`.

JavaScript objects are embedded as Lean structures, JS arrays as `List`,
nullable fields as `Option`, and thrown `TypeError`s as `Except` errors.
-/

namespace NorrisBot

/-- A Slack channel as consumed by the bot: `{id, is_archived, is_member}`. -/
structure Channel where
  id : String
  is_archived : Bool
  is_member : Bool
deriving DecidableEq, Repr

/-- A Slack group as consumed by the bot: `{id, is_archived, members}`. -/
structure Group where
  id : String
  is_archived : Bool
  members : List String
deriving DecidableEq, Repr

/-- `getChannelsWithMember(channels)` (variants B and C, identical text):
`channels.filter((channel) => channel.is_archived === false && channel.is_member)`. -/
def getChannelsWithMember (channels : List Channel) : List Channel :=
  channels.filter fun channel => channel.is_archived == false && channel.is_member

/-- `getGroupsWithMember(groups, memberID)` (variants B and C, identical text):
keeps groups that are not archived and whose `members` include `memberID`. -/
def getGroupsWithMember (groups : List Group) (memberID : String) : List Group :=
  groups.filter fun group =>
    (group.is_archived == false) && group.members.contains memberID

/-- `addChannel(channel)` (variant B): if no existing entry shares the id,
append the channel (`this.botChannels.concat(channel)`); otherwise no-op. -/
def addChannel (channel : Channel) (botChannels : List Channel) : List Channel :=
  if botChannels.any fun botChannel => botChannel.id == channel.id
  then botChannels else botChannels ++ [channel]

/-- `removeChannel(channelID)` (variant B): keep channels whose id differs. -/
def removeChannel (channelID : String) (botChannels : List Channel) : List Channel :=
  botChannels.filter fun channel => channel.id != channelID

/-- `addGroup(group)` (variant B): if no existing entry shares the id,
append the group; otherwise no-op. -/
def addGroup (group : Group) (botGroups : List Group) : List Group :=
  if botGroups.any fun botGroup => botGroup.id == group.id
  then botGroups else botGroups ++ [group]

/-- `removeGroup(groupID)` (variant B): keep groups whose id differs. -/
def removeGroup (groupID : String) (botGroups : List Group) : List Group :=
  botGroups.filter fun group => group.id != groupID

/-- The membership snapshot held by the bot instance: the `botChannels` and
`botGroups` instance fields, once seeded. -/
structure Membership where
  botChannels : List Channel
  botGroups : List Group
deriving DecidableEq, Repr

/-- The four membership-change events routed to the tracker by
`setupEventListeners` (variant B): `channel_joined`, `channel_left`,
`group_joined`, `group_left`. -/
inductive TrackOp where
  | addChannel (channel : Channel)
  | removeChannel (channelID : String)
  | addGroup (group : Group)
  | removeGroup (groupID : String)
deriving DecidableEq, Repr

/-- One membership-change event applied to the bot's snapshot state; each
event handler assigns exactly one of the two instance fields. -/
def applyOp (s : Membership) : TrackOp → Membership
  | TrackOp.addChannel channel =>
      { s with botChannels := addChannel channel s.botChannels }
  | TrackOp.removeChannel channelID =>
      { s with botChannels := removeChannel channelID s.botChannels }
  | TrackOp.addGroup group =>
      { s with botGroups := addGroup group s.botGroups }
  | TrackOp.removeGroup groupID =>
      { s with botGroups := removeGroup groupID s.botGroups }

/-- A sequence of membership-change events applied in order. -/
def applyOps (s : Membership) (ops : List TrackOp) : Membership :=
  ops.foldl applyOp s

/-- Seeding of the snapshot from the RTM connection payload (variants B, C):
`this.botGroups = this.getGroupsWithMember(payload.groups, this.botIdentity.id)`
and `this.botChannels = this.getChannelsWithMember(payload.channels)`. -/
def seed (botID : String) (channels : List Channel) (groups : List Group) :
    Membership :=
  { botChannels := getChannelsWithMember channels
    botGroups := getGroupsWithMember groups botID }

/-- The membership filter for channels (spec §3): not archived, bot a member. -/
def ChannelOk (channel : Channel) : Prop :=
  channel.is_archived = false ∧ channel.is_member = true

/-- The membership filter for groups (spec §3): not archived, bot id in
the group's members. -/
def GroupOk (botID : String) (group : Group) : Prop :=
  group.is_archived = false ∧ botID ∈ group.members

/-- The snapshot invariant (spec §3): every channel and every group in the
snapshot passes its membership filter. -/
def SnapshotInv (botID : String) (s : Membership) : Prop :=
  (∀ channel ∈ s.botChannels, ChannelOk channel) ∧
  (∀ group ∈ s.botGroups, GroupOk botID group)

instance (channel : Channel) : Decidable (ChannelOk channel) := by
  unfold ChannelOk; infer_instance

instance (botID : String) (group : Group) : Decidable (GroupOk botID group) := by
  unfold GroupOk; infer_instance

instance (botID : String) (s : Membership) : Decidable (SnapshotInv botID s) := by
  unfold SnapshotInv; infer_instance

/-- A membership-change event whose payload itself passes the membership
filter of spec §3 (the spec's assumption that "callers only push events for
destinations the bot currently belongs to"). -/
def OpOk (botID : String) : TrackOp → Prop
  | TrackOp.addChannel channel => ChannelOk channel
  | TrackOp.removeChannel _ => True
  | TrackOp.addGroup group => GroupOk botID group
  | TrackOp.removeGroup _ => True

instance (botID : String) (op : TrackOp) : Decidable (OpOk botID op) :=
  match op with
  | TrackOp.addChannel channel => (inferInstance : Decidable (ChannelOk channel))
  | TrackOp.removeChannel _ => (inferInstance : Decidable True)
  | TrackOp.addGroup group => (inferInstance : Decidable (GroupOk botID group))
  | TrackOp.removeGroup _ => (inferInstance : Decidable True)

/-! ## Joke selection (`getRandomJoke`, all variants)

`Math.random()` is modelled as a rational draw `r` with `0 ≤ r < 1`;
`Math.floor` is `Int.floor`, and JS array indexing (which yields `undefined`
out of bounds) is `List.get?`. -/

/-- `getRandomJoke()`:
`const randomIndex = Math.floor(Math.random() * this.jokes.length);`
`return this.jokes[randomIndex];` -/
def getRandomJoke (jokes : List String) (r : ℚ) : Option String :=
  jokes.get? (Int.toNat (Int.floor (r * jokes.length)))

/-! ## Scheduled broadcaster (variant C, `postJokeOfTheDay`)

Variant C's constructor initialises `botInstance`, `botUser`, `botGroups` and
`botChannels` to `null` and assigns them only in the `.then` callbacks of the
RTM promise; `scheduleJokeOfTheDay()` is called in the second `.then`, after
`botGroups` / `botChannels` are assigned. A thrown JS `TypeError` (member
access on `null`) is modelled as an `Except.error`. -/

/-- A thrown JavaScript error. -/
inductive JsError where
  | typeError
deriving DecidableEq, Repr

/-- The slice of the bot user record read by `postJokeOfTheDay`
(`this.botUser.profile.image_192`). -/
structure BotUser where
  image_192 : String
deriving DecidableEq, Repr

/-- An element of `[].concat(this.botGroups, this.botChannels)`: a group or a
channel (only its `id` is read by the loop body). -/
inductive DestObj where
  | group (g : Group)
  | channel (c : Channel)
deriving DecidableEq, Repr

/-- `obj.id` for either kind of destination. -/
def DestObj.destID : DestObj → String
  | DestObj.group g => g.id
  | DestObj.channel c => c.id

/-- `[].concat(a, b)` where `a` and `b` may each be an array or `null`:
an array contributes its elements, `null` contributes itself as one element. -/
def jsConcatPair (botGroups : Option (List Group))
    (botChannels : Option (List Channel)) : List (Option DestObj) :=
  (match botGroups with
    | some gs => gs.map fun g => some (DestObj.group g)
    | none => [none]) ++
  (match botChannels with
    | some cs => cs.map fun c => some (DestObj.channel c)
    | none => [none])

/-- The mutable instance fields of variant C read by `postJokeOfTheDay`;
`botInstance` records whether `this.botInstance` has been assigned
(it is `null` until the first RTM `.then` callback runs). -/
structure BotStateC where
  botInstance : Bool
  botUser : Option BotUser
  botGroups : Option (List Group)
  botChannels : Option (List Channel)
deriving DecidableEq, Repr

/-- The argument object passed to `this.botInstance.api.chat.postMessage`. -/
structure OutboundMessage where
  as_user : Bool
  channel : String
  icon_url : String
  text : String
  username : String
deriving DecidableEq, Repr

/-- One iteration of the `forEach` body: resolving the callee
`this.botInstance.api` throws on a `null` instance, `obj.id` throws on a
`null` element, and `this.botUser.profile` throws on a `null` user, in that
evaluation order. -/
def postMessageOnce (s : BotStateC) (randomJoke : String) (obj : Option DestObj) :
    Except JsError OutboundMessage :=
  if s.botInstance = false then Except.error JsError.typeError
  else
    match obj with
    | none => Except.error JsError.typeError
    | some dest =>
        match s.botUser with
        | none => Except.error JsError.typeError
        | some botUser =>
            Except.ok
              { as_user := false
                channel := dest.destID
                icon_url := botUser.image_192
                text := "Joke of the day:\n>\"" ++ randomJoke ++ "\""
                username := "norrisbot" }

/-- The `forEach` loop: iterations run in order; the result is the list of
outbound sends issued, paired with the error that aborted the loop, if any
(a thrown error propagates out of `forEach`, skipping later iterations). -/
def postMessageAll (s : BotStateC) (randomJoke : String) :
    List (Option DestObj) → List OutboundMessage × Option JsError
  | [] => ([], none)
  | obj :: objs =>
      match postMessageOnce s randomJoke obj with
      | Except.error e => ([], some e)
      | Except.ok msg =>
          let rest := postMessageAll s randomJoke objs
          (msg :: rest.1, rest.2)

/-- `postJokeOfTheDay()` (variant C): with `randomJoke` the joke already drawn
by `this.getRandomJoke()`, iterate `[].concat(this.botGroups, this.botChannels)`
and post one message per element; the result is the list of outbound sends
together with the JS error that aborted the loop, if any. -/
def postJokeOfTheDay (s : BotStateC) (randomJoke : String) :
    List OutboundMessage × Option JsError :=
  postMessageAll s randomJoke (jsConcatPair s.botGroups s.botChannels)

/-- The instance state set up by variant C's constructor before any RTM
callback has run: every field still `null`. -/
def unseededStateC : BotStateC :=
  { botInstance := false, botUser := none, botGroups := none, botChannels := none }

/-! ## Constructor option validation (all three variants) -/

/-- The configuration errors thrown by the three constructors. -/
inductive ConfigError where
  | missingSlackToken
  | missingGiphyToken
  | missingJokes
  | missingToken
deriving DecidableEq, Repr

/-- JS truthiness of an optional string option: `undefined` and `''` are
falsy, every other string is truthy. -/
def jsTruthyString : Option String → Bool
  | none => false
  | some s => !s.isEmpty

/-- `typeof x === 'string' && x.length > 0`. -/
def isNonEmptyString : Option String → Bool
  | none => false
  | some s => !s.isEmpty

/-- `Array.isArray(x) && x.length > 0` (the negation of the guard
`Array.isArray(x) === false || x.length <= 0`). -/
def isNonEmptyArray : Option (List String) → Bool
  | none => false
  | some jokes => decide (0 < jokes.length)

/-- Variant A's constructor validation (lines 15-22): `giphyToken` must be a
non-empty string and `jokes` a non-empty array; `slackToken` is not checked
(a falsy `slackToken` selects the BeepBoop path instead of RTM, without
raising). -/
def validateOptionsA (slackToken giphyToken : Option String)
    (jokes : Option (List String)) : Except ConfigError Unit :=
  if !isNonEmptyString giphyToken then Except.error ConfigError.missingGiphyToken
  else if !isNonEmptyArray jokes then Except.error ConfigError.missingJokes
  else Except.ok ()

/-- Variant B's constructor validation (lines 268-279): `slackToken` and
`giphyToken` must be non-empty strings and `jokes` a non-empty array. -/
def validateOptionsB (slackToken giphyToken : Option String)
    (jokes : Option (List String)) : Except ConfigError Unit :=
  if !isNonEmptyString slackToken then Except.error ConfigError.missingSlackToken
  else if !isNonEmptyString giphyToken then Except.error ConfigError.missingGiphyToken
  else if !isNonEmptyArray jokes then Except.error ConfigError.missingJokes
  else Except.ok ()

/-- Variant C's constructor validation (lines 587-594): `if (!options.token)`
throws, then `jokes` must be a non-empty array. -/
def validateOptionsC (token : Option String) (jokes : Option (List String)) :
    Except ConfigError Unit :=
  if !jsTruthyString token then Except.error ConfigError.missingToken
  else if !isNonEmptyArray jokes then Except.error ConfigError.missingJokes
  else Except.ok ()

/-! ## Pattern matching (Botkit `hears`)

Botkit compiles each `hears` pattern with `new RegExp(pattern, 'i')` and fires
a handler when the (case-insensitively) compiled regex matches anywhere in the
message text. The patterns used by this repository need only literal
characters, the `\b` word boundary, and the `^` / `$` anchors, so the engine
below implements exactly those constructs with JS semantics (no multiline
flag: `^` matches only at the start of the input, `$` only at the end;
`\b` is a boundary between a `[A-Za-z0-9_]` character and anything else). -/

/-- One token of a compiled pattern. -/
inductive RTok where
  | lit (c : Char)
  | wordB
  | caret
  | dollar
deriving DecidableEq, Repr

/-- Compile a pattern string: `\b` becomes a word boundary, `^` and `$`
anchors, anything else a literal. -/
def compilePattern : List Char → List RTok
  | [] => []
  | '\\' :: 'b' :: rest => RTok.wordB :: compilePattern rest
  | '^' :: rest => RTok.caret :: compilePattern rest
  | '$' :: rest => RTok.dollar :: compilePattern rest
  | c :: rest => RTok.lit c :: compilePattern rest

/-- JS `\w`: ASCII letter, digit or underscore. -/
def isWordChar (c : Char) : Bool :=
  c.isAlpha || c.isDigit || c == '_'

/-- Word-boundary test between an optional previous character and an optional
next character (`none` at either end of the input). -/
def atBoundary (prev next : Option Char) : Bool :=
  (match prev with | none => false | some c => isWordChar c) !=
  (match next with | none => false | some c => isWordChar c)

/-- Match a token list against `rest` starting at the current position;
`prev` is the character just before the position (`none` at the start of the
input). -/
def matchToks : List RTok → Option Char → List Char → Bool
  | [], _, _ => true
  | RTok.caret :: toks, prev, rest =>
      (match prev with | none => true | some _ => false) && matchToks toks prev rest
  | RTok.dollar :: toks, prev, rest =>
      (match rest with | [] => true | _ :: _ => false) && matchToks toks prev rest
  | RTok.wordB :: toks, prev, rest =>
      atBoundary prev rest.head? && matchToks toks prev rest
  | RTok.lit c :: toks, _, rest =>
      match rest with
      | [] => false
      | x :: xs => x == c && matchToks toks (some x) xs

/-- Search for a match at the current position or any later one. -/
def searchToks (toks : List RTok) : Option Char → List Char → Bool
  | prev, rest =>
      matchToks toks prev rest ||
        match rest with
        | [] => false
        | x :: xs => searchToks toks (some x) xs

/-- ASCII lowercasing of a character sequence (the effect of the regex `i`
flag on the ASCII patterns and texts involved here). -/
def lowerChars (cs : List Char) : List Char :=
  cs.map Char.toLower

/-- `new RegExp(pattern, 'i').test(text)`: case-insensitivity is modelled by
lowercasing both the pattern's literals and the text. -/
def jsRegexTest (pattern text : String) : Bool :=
  searchToks (compilePattern (lowerChars pattern.data)) none (lowerChars text.data)

/-- A `hears(patterns, ...)` trigger fires when any of its patterns matches. -/
def hearsMatch (patterns : List String) (text : String) : Bool :=
  patterns.any fun pattern => jsRegexTest pattern text

/-! ## The intent registry and router (variant C, lines 606-611 and 668-724)

Botkit fires at most one `hears` handler per message: the first registered
trigger whose event (scope) list contains the message's type and whose
pattern list matches the text. -/

/-- The message scopes used by `hears` registrations. -/
inductive Scope where
  | direct_message
  | direct_mention
  | mention
deriving DecidableEq, Repr

/-- The intents registered by variant C's `setupEventListeners`. -/
inductive Intent where
  | salutation
  | jokeRequest
  | helpRequest
  | gratitude
deriving DecidableEq, Repr

/-- `this.regexes.salutations` (identical in all three variants). -/
def salutationPatterns : List String :=
  ["\\bhi\\b", "hiya", "hey", "hello", "greetings"]

/-- `this.regexes.gratitude` (identical in all three variants). -/
def gratitudePatterns : List String :=
  ["\\bthanks\\b", "thank you"]

/-- `this.regexes.jokeRequests` (variant C). -/
def jokeRequestPatterns : List String :=
  ["joke"]

/-- `this.regexes.helpRequests` (identical in all three variants). -/
def helpRequestPatterns : List String :=
  ["^help$"]

/-- Variant C's `hears` registrations, in registration order: patterns and
accepted scopes per intent. -/
def intentRegistryC : List (Intent × List String × List Scope) :=
  [(Intent.salutation, salutationPatterns,
      [Scope.direct_message, Scope.direct_mention, Scope.mention]),
   (Intent.jokeRequest, jokeRequestPatterns,
      [Scope.direct_message, Scope.direct_mention, Scope.mention]),
   (Intent.helpRequest, helpRequestPatterns,
      [Scope.direct_message, Scope.direct_mention]),
   (Intent.gratitude, gratitudePatterns,
      [Scope.direct_message, Scope.direct_mention, Scope.mention])]

/-- Botkit's dispatch: the first registered intent whose scope list contains
the message's scope and whose pattern list matches the text; `none` when no
intent fires. -/
def route (text : String) (scope : Scope) : Option Intent :=
  (intentRegistryC.find? fun entry =>
      entry.2.2.contains scope && hearsMatch entry.2.1 text).map
    fun entry => entry.1

/-! ## Reply construction for salutation and gratitude (variant C,
lines 683-687 and 718-721)

`const userGreeting = (message.user) ? ` <@${message.user}>` : '';` —
`message.user` is truthy exactly when it is a present, non-empty string. -/

/-- The `userGreeting` expression: a mention clause when the sender identity
is truthy, the empty string otherwise. -/
def userGreeting : Option String → String
  | none => ""
  | some user => if user.isEmpty then "" else " <@" ++ user ++ ">"

/-- The salutation handler's reply: `Howdy${userGreeting}.`. -/
def salutationReply (user : Option String) : String :=
  "Howdy" ++ userGreeting user ++ "."

/-- The gratitude handler's reply: `You\x27re welcome${userGreeting}.`. -/
def gratitudeReply (user : Option String) : String :=
  "You\x27re welcome" ++ userGreeting user ++ "."

/-! ## Helper lemmas -/

/-- Every channel passing the seed filter is non-archived with the bot a
member. -/
theorem channelOk_of_mem_filter {channel : Channel} {channels : List Channel}
    (h : channel ∈ getChannelsWithMember channels) : ChannelOk channel := by
  unfold getChannelsWithMember at h
  rw [List.mem_filter] at h
  obtain ⟨-, hp⟩ := h
  simp only [Bool.and_eq_true, beq_iff_eq] at hp
  exact ⟨hp.1, hp.2⟩

/-- Every group passing the seed filter is non-archived with the bot id among
its members. -/
theorem groupOk_of_mem_filter {group : Group} {groups : List Group}
    {botID : String} (h : group ∈ getGroupsWithMember groups botID) :
    GroupOk botID group := by
  unfold getGroupsWithMember at h
  rw [List.mem_filter] at h
  obtain ⟨-, hp⟩ := h
  simp only [Bool.and_eq_true, beq_iff_eq] at hp
  exact ⟨hp.1, List.elem_iff.mp hp.2⟩

/-- Adding a channel whose id is already present is a no-op. -/
theorem addChannel_of_any (channel : Channel) (chans : List Channel)
    (h : chans.any (fun botChannel => botChannel.id == channel.id) = true) :
    addChannel channel chans = chans := by
  unfold addChannel
  simp [h]

/-- Adding a group whose id is already present is a no-op. -/
theorem addGroup_of_any (group : Group) (grps : List Group)
    (h : grps.any (fun botGroup => botGroup.id == group.id) = true) :
    addGroup group grps = grps := by
  unfold addGroup
  simp [h]

/-! ## C6 -/

/-- C6: immediately after `seed` is applied to a connection payload, every
channel in the snapshot satisfies `is_archived = false` and
`is_member = true`, and every group satisfies `is_archived = false` and
contains the bot's id in its members list. -/
theorem seed_satisfies_membership_filter (botID : String)
    (channels : List Channel) (groups : List Group) :
    (∀ channel, channel ∈ (seed botID channels groups).botChannels →
       channel.is_archived = false ∧ channel.is_member = true) ∧
    (∀ group, group ∈ (seed botID channels groups).botGroups →
       group.is_archived = false ∧ botID ∈ group.members) :=
  ⟨fun _ h => channelOk_of_mem_filter h, fun _ h => groupOk_of_mem_filter h⟩

/-- Witness for C6: a concrete payload, evaluated. -/
theorem seed_satisfies_membership_filter_witness :
    (⟨"C1", false, true⟩ : Channel) ∈
        (seed "B1" [⟨"C1", false, true⟩, ⟨"C2", true, true⟩]
          [⟨"G1", false, ["B1"]⟩]).botChannels ∧
    ((⟨"C1", false, true⟩ : Channel).is_archived = false ∧
      (⟨"C1", false, true⟩ : Channel).is_member = true) ∧
    (⟨"G1", false, ["B1"]⟩ : Group) ∈
        (seed "B1" [⟨"C1", false, true⟩, ⟨"C2", true, true⟩]
          [⟨"G1", false, ["B1"]⟩]).botGroups ∧
    ((⟨"G1", false, ["B1"]⟩ : Group).is_archived = false ∧
      "B1" ∈ (⟨"G1", false, ["B1"]⟩ : Group).members) := by
  have h := seed_satisfies_membership_filter "B1"
    [⟨"C1", false, true⟩, ⟨"C2", true, true⟩] [⟨"G1", false, ["B1"]⟩]
  exact ⟨by decide, h.1 _ (by decide), by decide, h.2 _ (by decide)⟩

/-! ## C7 -/

/-- C7: `addChannel` of a destination whose id is already present is a no-op
(two successive calls equal one), `removeChannel` of an absent id is a no-op,
and likewise for `addGroup` / `removeGroup`. -/
theorem membership_edit_idempotence (channel : Channel) (group : Group)
    (channelID groupID : String) (chans : List Channel) (grps : List Group) :
    (addChannel channel (addChannel channel chans) = addChannel channel chans) ∧
    ((∃ c ∈ chans, c.id = channel.id) → addChannel channel chans = chans) ∧
    ((∀ c ∈ chans, c.id ≠ channelID) → removeChannel channelID chans = chans) ∧
    (addGroup group (addGroup group grps) = addGroup group grps) ∧
    ((∃ g ∈ grps, g.id = group.id) → addGroup group grps = grps) ∧
    ((∀ g ∈ grps, g.id ≠ groupID) → removeGroup groupID grps = grps) := by
  refine ⟨?_, ?_, ?_, ?_, ?_, ?_⟩
  · unfold addChannel
    cases h : chans.any (fun botChannel => botChannel.id == channel.id) with
    | true => simp [h]
    | false => simp [h, List.any_append]
  · intro h
    apply addChannel_of_any
    rw [List.any_eq_true]
    obtain ⟨c, hc, hid⟩ := h
    exact ⟨c, hc, by simp [hid]⟩
  · intro h
    unfold removeChannel
    rw [List.filter_eq_self]
    intro c hc
    simpa [bne_iff_ne] using h c hc
  · unfold addGroup
    cases h : grps.any (fun botGroup => botGroup.id == group.id) with
    | true => simp [h]
    | false => simp [h, List.any_append]
  · intro h
    apply addGroup_of_any
    rw [List.any_eq_true]
    obtain ⟨g, hg, hid⟩ := h
    exact ⟨g, hg, by simp [hid]⟩
  · intro h
    unfold removeGroup
    rw [List.filter_eq_self]
    intro g hg
    simpa [bne_iff_ne] using h g hg

/-- Witness for C7: the no-ops evaluated on concrete snapshots; the added
channel record differs from the stored one everywhere except its id. -/
theorem membership_edit_idempotence_witness :
    addChannel ⟨"C1", true, false⟩ [⟨"C1", false, true⟩] = [⟨"C1", false, true⟩] ∧
    removeChannel "X" [⟨"C1", false, true⟩] = [⟨"C1", false, true⟩] ∧
    addGroup ⟨"G1", true, []⟩ [⟨"G1", false, ["B1"]⟩] = [⟨"G1", false, ["B1"]⟩] ∧
    removeGroup "Y" [⟨"G1", false, ["B1"]⟩] = [⟨"G1", false, ["B1"]⟩] := by
  have h := membership_edit_idempotence ⟨"C1", true, false⟩ ⟨"G1", true, []⟩
    "X" "Y" [⟨"C1", false, true⟩] [⟨"G1", false, ["B1"]⟩]
  exact ⟨h.2.1 (by decide), h.2.2.1 (by decide),
    h.2.2.2.2.1 (by decide), h.2.2.2.2.2 (by decide)⟩

/-! ## C10 -/

/-- C10: each mutation touches only its own partition: `addChannel` and
`removeChannel` leave `botGroups` unchanged, `addGroup` and `removeGroup`
leave `botChannels` unchanged. -/
theorem membership_edit_frame (s : Membership) (channel : Channel)
    (group : Group) (channelID groupID : String) :
    (applyOp s (TrackOp.addChannel channel)).botGroups = s.botGroups ∧
    (applyOp s (TrackOp.removeChannel channelID)).botGroups = s.botGroups ∧
    (applyOp s (TrackOp.addGroup group)).botChannels = s.botChannels ∧
    (applyOp s (TrackOp.removeGroup groupID)).botChannels = s.botChannels :=
  ⟨rfl, rfl, rfl, rfl⟩

/-! ## C1 -/

/-- C1 counterexample: a broadcast firing in the unseeded state (all instance
fields still `null`) does not complete without error — resolving
`this.botInstance.api` on the first `forEach` iteration throws a `TypeError`. -/
theorem unseeded_firing_raises :
    (postJokeOfTheDay unseededStateC
        "Chuck Norris can divide by zero.").2 = some JsError.typeError := rfl

/-- C1 amended: a broadcast firing in the unseeded state issues zero outbound
sends but aborts with a thrown `TypeError` (it is not an error-free no-op);
in the program this state is unreachable at a tick, because variant C calls
`scheduleJokeOfTheDay()` only in the RTM `.then` callback, after
`botGroups` / `botChannels` have been assigned. -/
theorem unseeded_firing_no_sends_but_raises (randomJoke : String) :
    postJokeOfTheDay unseededStateC randomJoke = ([], some JsError.typeError) :=
  rfl

/-! ## C2 -/

/-- C2 counterexample: the mutation operations do not re-check the membership
filter, so after a seed an `addChannel` event carrying an archived,
non-member channel puts that channel into the snapshot. -/
theorem tracker_admits_archived_channel :
    (⟨"CX", true, false⟩ : Channel) ∈
      (applyOps (seed "B1" [] [])
        [TrackOp.addChannel ⟨"CX", true, false⟩]).botChannels ∧
    (⟨"CX", true, false⟩ : Channel).is_archived = true := by decide

/-- A channel reached through `addChannel` was present before or is the added
one. -/
theorem mem_of_mem_addChannel {x channel : Channel} {chans : List Channel}
    (h : x ∈ addChannel channel chans) : x ∈ chans ∨ x = channel := by
  unfold addChannel at h
  split at h
  · exact Or.inl h
  · rcases List.mem_append.mp h with h1 | h1
    · exact Or.inl h1
    · exact Or.inr (List.mem_singleton.mp h1)

/-- A group reached through `addGroup` was present before or is the added
one. -/
theorem mem_of_mem_addGroup {x group : Group} {grps : List Group}
    (h : x ∈ addGroup group grps) : x ∈ grps ∨ x = group := by
  unfold addGroup at h
  split at h
  · exact Or.inl h
  · rcases List.mem_append.mp h with h1 | h1
    · exact Or.inl h1
    · exact Or.inr (List.mem_singleton.mp h1)

/-- One filter-respecting event preserves the snapshot invariant. -/
theorem snapshotInv_applyOp {botID : String} {s : Membership} {op : TrackOp}
    (h : SnapshotInv botID s) (hop : OpOk botID op) :
    SnapshotInv botID (applyOp s op) := by
  obtain ⟨hc, hg⟩ := h
  cases op with
  | addChannel channel =>
      refine ⟨fun x hx => ?_, hg⟩
      rcases mem_of_mem_addChannel hx with h1 | rfl
      · exact hc x h1
      · exact hop
  | removeChannel channelID =>
      exact ⟨fun x hx => hc x (List.mem_filter.mp hx).1, hg⟩
  | addGroup group =>
      refine ⟨hc, fun x hx => ?_⟩
      rcases mem_of_mem_addGroup hx with h1 | rfl
      · exact hg x h1
      · exact hop
  | removeGroup groupID =>
      exact ⟨hc, fun x hx => hg x (List.mem_filter.mp hx).1⟩

/-- A sequence of filter-respecting events preserves the snapshot
invariant. -/
theorem snapshotInv_applyOps {botID : String} {s : Membership}
    {ops : List TrackOp} (h : SnapshotInv botID s)
    (hops : ∀ op ∈ ops, OpOk botID op) :
    SnapshotInv botID (applyOps s ops) := by
  induction ops generalizing s with
  | nil => exact h
  | cons op ops ih =>
      exact ih (snapshotInv_applyOp h (hops op (by simp)))
        fun o ho => hops o (by simp [ho])

/-- C2 amended: after `seed`, any sequence of add/remove events whose added
destinations themselves pass the membership filter (the spec's stated
assumption about callers) leaves a snapshot with no archived destination, no
channel the bot is not a member of, and no group lacking the bot's id; the
operations themselves never re-check the filter, so the restriction on added
destinations is needed. -/
theorem seed_then_ops_invariant (botID : String) (channels : List Channel)
    (groups : List Group) (ops : List TrackOp)
    (hops : ∀ op ∈ ops, OpOk botID op) :
    SnapshotInv botID (applyOps (seed botID channels groups) ops) :=
  snapshotInv_applyOps
    ⟨fun _ h => channelOk_of_mem_filter h, fun _ h => groupOk_of_mem_filter h⟩
    hops

/-- Witness for C2's amended theorem: a concrete seed payload and event
sequence, the hypothesis evaluated by `decide`. -/
theorem seed_then_ops_invariant_witness :
    (∀ op ∈ [TrackOp.addChannel ⟨"C2", false, true⟩,
        TrackOp.removeChannel "C1",
        TrackOp.addGroup ⟨"G2", false, ["B1", "U7"]⟩], OpOk "B1" op) ∧
    SnapshotInv "B1"
      (applyOps (seed "B1" [⟨"C1", false, true⟩] [⟨"G1", false, ["B1"]⟩])
        [TrackOp.addChannel ⟨"C2", false, true⟩,
         TrackOp.removeChannel "C1",
         TrackOp.addGroup ⟨"G2", false, ["B1", "U7"]⟩]) :=
  ⟨by decide,
   seed_then_ops_invariant "B1" [⟨"C1", false, true⟩] [⟨"G1", false, ["B1"]⟩]
     [TrackOp.addChannel ⟨"C2", false, true⟩,
      TrackOp.removeChannel "C1",
      TrackOp.addGroup ⟨"G2", false, ["B1", "U7"]⟩] (by decide)⟩

/-! ## C3 -/

/-- C3 counterexample: in variant A a present, non-empty access token and a
non-empty joke collection do not prevent a construction-time configuration
error (the Giphy token is also required), and a missing access token does not
cause one (the BeepBoop path is taken instead). -/
theorem constructor_validation_counterexample :
    validateOptionsA (some "slack-token") none (some ["joke"]) =
      Except.error ConfigError.missingGiphyToken ∧
    validateOptionsA none (some "giphy-token") (some ["joke"]) =
      Except.ok () :=
  ⟨rfl, rfl⟩

/-- C3 amended: construction fails before any connection attempt exactly when
a required option of the variant is missing: variant C requires a truthy
`token` and a non-empty joke array (as the claim states); variants A and B
additionally require a non-empty `giphyToken` string, and variant A does not
require `slackToken` at all. -/
theorem constructor_validation_characterisation
    (slackToken giphyToken token : Option String)
    (jokes : Option (List String)) :
    (validateOptionsC token jokes = Except.ok () ↔
      jsTruthyString token = true ∧ isNonEmptyArray jokes = true) ∧
    (validateOptionsA slackToken giphyToken jokes = Except.ok () ↔
      isNonEmptyString giphyToken = true ∧ isNonEmptyArray jokes = true) ∧
    (validateOptionsB slackToken giphyToken jokes = Except.ok () ↔
      isNonEmptyString slackToken = true ∧ isNonEmptyString giphyToken = true ∧
        isNonEmptyArray jokes = true) := by
  refine ⟨?_, ?_, ?_⟩
  · cases h1 : jsTruthyString token <;> cases h2 : isNonEmptyArray jokes <;>
      simp [validateOptionsC, h1, h2]
  · cases h1 : isNonEmptyString giphyToken <;>
      cases h2 : isNonEmptyArray jokes <;>
      simp [validateOptionsA, h1, h2]
  · cases h1 : isNonEmptyString slackToken <;>
      cases h2 : isNonEmptyString giphyToken <;>
      cases h3 : isNonEmptyArray jokes <;>
      simp [validateOptionsB, h1, h2, h3]

/-- Witness for C3's amended theorem: concrete options evaluated. -/
theorem constructor_validation_characterisation_witness :
    validateOptionsC (some "t") (some ["j"]) = Except.ok () ∧
    validateOptionsB (some "s") (some "g") (some ["j"]) = Except.ok () :=
  ⟨(constructor_validation_characterisation (some "s") (some "g") (some "t")
      (some ["j"])).1.mpr ⟨by decide, by decide⟩,
   (constructor_validation_characterisation (some "s") (some "g") (some "t")
      (some ["j"])).2.2.mpr ⟨by decide, by decide, by decide⟩⟩

/-! ## Regex engine lemmas -/

/-- A compiled literal run followed by `$` matches from the current position
exactly when the remaining input equals the run. -/
theorem matchToks_lits_dollar (s : List Char) :
    ∀ (prev : Option Char) (l : List Char),
      matchToks (s.map RTok.lit ++ [RTok.dollar]) prev l = true ↔ l = s := by
  induction s with
  | nil =>
      intro prev l
      cases l <;> simp [matchToks]
  | cons c s ih =>
      intro prev l
      cases l with
      | nil => simp [matchToks]
      | cons x xs =>
          simp [matchToks, ih, Bool.and_eq_true, beq_iff_eq]

/-- A pattern anchored with a leading `^` never matches at a position with a
preceding character. -/
theorem searchToks_caret_some (toks : List RTok) :
    ∀ (c : Char) (l : List Char),
      searchToks (RTok.caret :: toks) (some c) l = false := by
  intro c l
  induction l generalizing c with
  | nil => simp [searchToks, matchToks]
  | cons x xs ih => simp [searchToks, matchToks, ih]

/-- Searching a `^`-anchored pattern from the start of the input is exactly
matching the rest of the pattern at position zero. -/
theorem searchToks_caret_from_start (toks : List RTok) (l : List Char) :
    searchToks (RTok.caret :: toks) none l = matchToks toks none l := by
  cases l with
  | nil => simp [searchToks, matchToks]
  | cons x xs => simp [searchToks, matchToks, searchToks_caret_some]

/-- The help pattern `^help$` (compiled case-insensitively) matches a text
exactly when the lowercased text is the four characters `help`. -/
theorem jsRegexTest_help (t : String) :
    jsRegexTest "^help$" t = true ↔ lowerChars t.data = "help".data := by
  have hpat : compilePattern (lowerChars "^help$".data) =
      RTok.caret :: ("help".data.map RTok.lit ++ [RTok.dollar]) := by decide
  rw [jsRegexTest, hpat, searchToks_caret_from_start, matchToks_lits_dollar]

/-- A compiled literal run matches at the current position exactly when it is
a prefix of the remaining input. -/
theorem matchToks_lits (s : List Char) :
    ∀ (prev : Option Char) (l : List Char),
      matchToks (s.map RTok.lit) prev l = true ↔ s <+: l := by
  induction s with
  | nil => intro prev l; simp [matchToks]
  | cons c s ih =>
      intro prev l
      cases l with
      | nil => simp [matchToks]
      | cons x xs =>
          simp [matchToks, ih, Bool.and_eq_true, beq_iff_eq,
            List.cons_prefix_cons]
          exact fun _ => eq_comm

/-- Searching a pure literal run succeeds exactly when it occurs somewhere in
the remaining input. -/
theorem searchToks_lits (s : List Char) :
    ∀ (prev : Option Char) (l : List Char),
      searchToks (s.map RTok.lit) prev l = true ↔ s <:+: l := by
  intro prev l
  induction l generalizing prev with
  | nil => simp [searchToks, matchToks_lits]
  | cons x xs ih =>
      simp [searchToks, matchToks_lits, ih, List.infix_cons_iff]

/-! ## C4 -/

/-- C4 counterexample: the text `HELP` fires the help intent although it is
not equal to the string `help` — Botkit compiles `^help$` with the
case-insensitive flag, so full-string equality up to case, not string
equality, is what gates the help intent (`HELP` is already trimmed). -/
theorem help_intent_fires_on_uppercase :
    hearsMatch helpRequestPatterns "HELP" = true ∧ ("HELP" : String) ≠ "help" :=
  ⟨by decide, by decide⟩

/-- C4 amended: the help intent fires exactly when the matched text equals
`help` case-insensitively (so `hello help` never fires it), while for the
other intents a case-insensitive substring match anywhere in the text
suffices (shown for the literal patterns `hey`, `joke` and `thank you` of
the salutation, joke-request and gratitude intents). -/
theorem help_intent_exact_match_up_to_case (t : String) :
    (hearsMatch helpRequestPatterns t = true ↔ lowerChars t.data = "help".data) ∧
    hearsMatch helpRequestPatterns "hello help" = false ∧
    ("hey".data <:+: lowerChars t.data → hearsMatch salutationPatterns t = true) ∧
    ("joke".data <:+: lowerChars t.data → hearsMatch jokeRequestPatterns t = true) ∧
    ("thank you".data <:+: lowerChars t.data →
      hearsMatch gratitudePatterns t = true) := by
  refine ⟨?_, by decide, ?_, ?_, ?_⟩
  · rw [show hearsMatch helpRequestPatterns t = jsRegexTest "^help$" t by
      simp [hearsMatch, helpRequestPatterns]]
    exact jsRegexTest_help t
  · intro h
    refine List.any_eq_true.mpr ⟨"hey", by simp [salutationPatterns], ?_⟩
    have hpat : compilePattern (lowerChars "hey".data) =
        "hey".data.map RTok.lit := by decide
    rw [jsRegexTest, hpat, searchToks_lits]
    exact h
  · intro h
    refine List.any_eq_true.mpr ⟨"joke", by simp [jokeRequestPatterns], ?_⟩
    have hpat : compilePattern (lowerChars "joke".data) =
        "joke".data.map RTok.lit := by decide
    rw [jsRegexTest, hpat, searchToks_lits]
    exact h
  · intro h
    refine List.any_eq_true.mpr ⟨"thank you", by simp [gratitudePatterns], ?_⟩
    have hpat : compilePattern (lowerChars "thank you".data) =
        "thank you".data.map RTok.lit := by decide
    rw [jsRegexTest, hpat, searchToks_lits]
    exact h

/-- Witness for C4's amended theorem: concrete texts evaluated. -/
theorem help_intent_exact_match_up_to_case_witness :
    hearsMatch helpRequestPatterns "HeLp" = true ∧
    hearsMatch salutationPatterns "Hey there" = true :=
  ⟨(help_intent_exact_match_up_to_case "HeLp").1.mpr (by decide),
   (help_intent_exact_match_up_to_case "Hey there").2.2.1 (by decide)⟩

/-! ## C5 -/

/-- C5: a message whose text matches both a salutation pattern and a
gratitude pattern, in a scope accepted by both registrations, fires exactly
one intent — the salutation intent, registered first (Botkit dispatches to
the first matching `hears` registration only). -/
theorem router_salutation_priority (t : String) (scope : Scope)
    (hsal : hearsMatch salutationPatterns t = true)
    (_hgrat : hearsMatch gratitudePatterns t = true)
    (hsalScope :
      scope ∈ [Scope.direct_message, Scope.direct_mention, Scope.mention])
    (_hgratScope :
      scope ∈ [Scope.direct_message, Scope.direct_mention, Scope.mention]) :
    route t scope = some Intent.salutation := by
  have hsc : scope = Scope.direct_message ∨ scope = Scope.direct_mention ∨
      scope = Scope.mention := by simpa using hsalScope
  rcases hsc with rfl | rfl | rfl <;>
    simp [route, intentRegistryC, List.find?, hsal]

/-- Witness for C5: a concrete text matching both intents in a shared
scope. -/
theorem router_salutation_priority_witness :
    hearsMatch salutationPatterns "hello and thank you" = true ∧
    hearsMatch gratitudePatterns "hello and thank you" = true ∧
    route "hello and thank you" Scope.direct_message = some Intent.salutation :=
  ⟨by decide, by decide,
   router_salutation_priority "hello and thank you" Scope.direct_message
     (by decide) (by decide) (by decide) (by decide)⟩

/-! ## C8 -/

/-- C8: for a non-empty joke collection, every draw `r` of `Math.random()`
(i.e. every rational with `0 ≤ r < 1`) selects an element of the collection,
and every index of the collection is selected by some draw (so no element has
zero selection probability). -/
theorem getRandomJoke_in_collection (jokes : List String) (h : jokes ≠ []) :
    (∀ r : ℚ, 0 ≤ r → r < 1 →
      ∃ joke ∈ jokes, getRandomJoke jokes r = some joke) ∧
    (∀ i : Nat, ∀ hi : i < jokes.length, ∃ r : ℚ, 0 ≤ r ∧ r < 1 ∧
      getRandomJoke jokes r = some (jokes.get ⟨i, hi⟩)) := by
  constructor
  · intro r h0 h1
    have hn : 0 < jokes.length := List.length_pos.mpr h
    have hnq : (0 : ℚ) < (jokes.length : ℚ) := by exact_mod_cast hn
    have hfl0 : 0 ≤ Int.floor (r * (jokes.length : ℚ)) :=
      Int.floor_nonneg.mpr (mul_nonneg h0 (le_of_lt hnq))
    have hlt : r * (jokes.length : ℚ) < ((jokes.length : ℤ) : ℚ) := by
      push_cast
      calc r * (jokes.length : ℚ) < 1 * (jokes.length : ℚ) :=
            mul_lt_mul_of_pos_right h1 hnq
        _ = (jokes.length : ℚ) := one_mul _
    have hfl : Int.floor (r * (jokes.length : ℚ)) < (jokes.length : ℤ) :=
      Int.floor_lt.mpr hlt
    have hidx : (Int.floor (r * (jokes.length : ℚ))).toNat < jokes.length := by
      omega
    exact ⟨jokes.get ⟨_, hidx⟩, List.get_mem jokes _ hidx,
      List.get?_eq_get hidx⟩
  · intro i hi
    have hn : 0 < jokes.length := lt_of_le_of_lt (Nat.zero_le i) hi
    have hnq : (0 : ℚ) < (jokes.length : ℚ) := by exact_mod_cast hn
    refine ⟨(i : ℚ) / (jokes.length : ℚ), ?_, ?_, ?_⟩
    · positivity
    · rw [div_lt_one hnq]
      exact_mod_cast hi
    · unfold getRandomJoke
      rw [div_mul_cancel₀ _ (ne_of_gt hnq), Int.floor_natCast,
        Int.toNat_natCast]
      exact List.get?_eq_get hi

/-- Witness for C8: a two-element collection with the draws `0` and `1/2`. -/
theorem getRandomJoke_in_collection_witness :
    (∃ joke ∈ ["first", "second"], getRandomJoke ["first", "second"] 0 = some joke) ∧
    (∃ r : ℚ, 0 ≤ r ∧ r < 1 ∧
      getRandomJoke ["first", "second"] r =
        some ((["first", "second"] : List String).get ⟨1, by decide⟩)) :=
  ⟨(getRandomJoke_in_collection ["first", "second"] (by decide)).1 0 le_rfl
      (by norm_num),
   (getRandomJoke_in_collection ["first", "second"] (by decide)).2 1 (by decide)⟩

/-! ## C9 -/

/-- C9: a salutation or gratitude reply to a message carrying a (truthy)
sender identity contains the mention token interpolating that identity, while
a reply to a message without a sender identity is the bare greeting or thanks
text, containing no mention clause at all. -/
theorem reply_mentions_sender_iff_present (user : String) (h : user ≠ "") :
    ("<@" ++ user ++ ">").data <:+: (salutationReply (some user)).data ∧
    ("<@" ++ user ++ ">").data <:+: (gratitudeReply (some user)).data ∧
    salutationReply none = "Howdy." ∧
    gratitudeReply none = "You\x27re welcome." ∧
    ¬ ("<@".data <:+: (salutationReply none).data) ∧
    ¬ ("<@".data <:+: (gratitudeReply none).data) := by
  have h0 : user.isEmpty = false := by
    cases heq : user.isEmpty
    · rfl
    · exact absurd ((String.isEmpty_iff user).mp heq) h
  have hgreet : userGreeting (some user) = " <@" ++ user ++ ">" := by
    simp [userGreeting, h0]
  have hsp : (" <@".data : List Char) = ' ' :: "<@".data := by decide
  refine ⟨?_, ?_, rfl, rfl, by decide, by decide⟩
  · rw [salutationReply, hgreet]
    simp only [String.data_append, hsp]
    exact ⟨"Howdy".data ++ [' '], ".".data, by simp⟩
  · rw [gratitudeReply, hgreet]
    simp only [String.data_append, hsp]
    exact ⟨"You\x27re welcome".data ++ [' '], ".".data, by simp⟩

/-- Witness for C9: the sender identity `U9`, evaluated. -/
theorem reply_mentions_sender_iff_present_witness :
    ("<@" ++ "U9" ++ ">").data <:+: (salutationReply (some "U9")).data ∧
    salutationReply none = "Howdy." :=
  ⟨(reply_mentions_sender_iff_present "U9" (by decide)).1,
   (reply_mentions_sender_iff_present "U9" (by decide)).2.2.1⟩

end NorrisBot
